import Mathlib

/-!
# Verification of the request-dispatch surface of the example MCP server

This development embeds the request-routing logic of
`examples/nodejs/vulnerable-mcp-server/src/index.ts`: the `CallToolRequestSchema`
handler (a try/catch around an argument check and a switch over tool names),
the `ReadResourceRequestSchema` handler (an if/else chain over resource URIs),
and the `GetPromptRequestSchema` handler (a switch over prompt names).
Handlers (the imported tool / resource / prompt functions) are treated as
opaque functions, as the specification's handler boundary prescribes; the
embedding records which handler is invoked and with which arguments, so that
dispatch correctness, cross-talk, caching and error-propagation properties
can be stated and settled.
-/

set_option autoImplicit false

namespace McpDispatch

/-- A JavaScript value as it appears in a request's parameter bag
(`request.params.arguments` maps string keys to arbitrary JSON values). -/
inductive JValue where
  | vStr (s : String)
  | vNum (n : Int)
  | vBool (b : Bool)
  | vNull
  deriving DecidableEq, Repr

/-- A parameter bag: the `arguments` object of a request, an unordered
string-keyed mapping supplied by the caller. -/
abbrev Bag := List (String × JValue)

/-- JavaScript property access `args.k`: the value at key `k`, or
`undefined` (modelled as `none`) when the key is absent.  The TypeScript
casts `as string` in the source are compile-time only and do not change the
runtime value, so they are not modelled. -/
def Bag.get (b : Bag) (k : String) : Option JValue :=
  (b.find? (fun e => e.1 == k)).map (fun e => e.2)

/-- A JavaScript `Error` object as used by the server: a `name` (always
`"Error"` for `new Error(...)`), a `message`, and a runtime-assigned
`stack` string. -/
structure ErrObj where
  name : String
  message : String
  stack : String
  deriving DecidableEq, Repr

/-- `new Error(msg)` whose runtime stack trace is `stk` (the stack string is
assigned by the JavaScript engine at construction time, so the embedding
takes it as a parameter). -/
def jsError (msg stk : String) : ErrObj :=
  ⟨"Error", msg, stk⟩

/-- `Error.prototype.toString()`, used by the template-literal interpolation
`${error}` in the catch block of the tool dispatcher. -/
def jsErrorToString (e : ErrObj) : String :=
  if e.name = "" then e.message
  else if e.message = "" then e.name
  else e.name ++ ": " ++ e.message

/-- One entry of a `content` array: `{ type: "text", text: ... }`. -/
structure TextContent where
  type : String
  text : String
  deriving DecidableEq, Repr

/-- The response shape of the tool-call request handler:
`{ content: [...] }`, with the `isError` field optional (absent = `none`). -/
structure ToolResponse where
  content : List TextContent
  isError : Option Bool
  deriving DecidableEq, Repr

/-- The text built by the catch block of the `CallToolRequestSchema` handler:
`` `Error: ${error}\n\nStack trace:\n${(error as Error).stack}` ``. -/
def catchText (e : ErrObj) : String :=
  "Error: " ++ jsErrorToString e ++ "\n\nStack trace:\n" ++ e.stack

/-- The response returned by the catch block of the `CallToolRequestSchema`
handler: a single text content embedding the error and its stack trace,
with no `isError` field. -/
def catchResponse (e : ErrObj) : ToolResponse :=
  { content := [⟨"text", catchText e⟩], isError := none }

/-- A tool-handler invocation: which imported tool function the switch of the
`CallToolRequestSchema` handler calls, with exactly the argument values the
switch extracts from the parameter bag and passes positionally. -/
inductive ToolCall where
  | executeCommand (command : Option JValue)
  | fileOperations (operation path content : Option JValue)
  | gitOperations (action repo message : Option JValue)
  | dependencyManager (action pkg : Option JValue)
  | codeAnalysis (tool file : Option JValue)
  | aiCodeAssistant (task code prompt : Option JValue)
  | environmentManager (action key value : Option JValue)
  | databaseTools (query database : Option JValue)
  deriving DecidableEq, Repr

/-- The tool name under which each handler is reachable in the switch. -/
def ToolCall.toolName : ToolCall → String
  | .executeCommand _ => "execute_command"
  | .fileOperations _ _ _ => "file_operations"
  | .gitOperations _ _ _ => "git_operations"
  | .dependencyManager _ _ => "dependency_manager"
  | .codeAnalysis _ _ => "code_analysis"
  | .aiCodeAssistant _ _ _ => "ai_code_assistant"
  | .environmentManager _ _ _ => "environment_manager"
  | .databaseTools _ _ => "database_tools"

/-- The tool names the `CallToolRequestSchema` switch recognises, in source
order. -/
def registeredToolNames : List String :=
  ["execute_command", "file_operations", "git_operations", "dependency_manager",
   "code_analysis", "ai_code_assistant", "environment_manager", "database_tools"]

/-- The parameter-bag keys each case of the `CallToolRequestSchema` switch
extracts and passes to its handler (`args.command`, `args.operation`, ...);
empty for unregistered names. -/
def toolArgKeys (name : String) : List String :=
  if name = "execute_command" then ["command"]
  else if name = "file_operations" then ["operation", "path", "content"]
  else if name = "git_operations" then ["action", "repo", "message"]
  else if name = "dependency_manager" then ["action", "package"]
  else if name = "code_analysis" then ["tool", "file"]
  else if name = "ai_code_assistant" then ["task", "code", "prompt"]
  else if name = "environment_manager" then ["action", "key", "value"]
  else if name = "database_tools" then ["query", "database"]
  else []

/-- The body of the `try` block of the `CallToolRequestSchema` handler:
first `if (!args) throw new Error("Missing arguments")`, then the switch on
the tool name, each case extracting named properties of `args` and calling
the corresponding handler; the default case throws
`` new Error(`Unknown tool: ${name}`) ``.  `stk` is the runtime stack string
of whichever `Error` this block itself constructs. -/
def callToolSwitch (stk name : String) (args : Option Bag) : Except ErrObj ToolCall :=
  match args with
  | none => .error (jsError "Missing arguments" stk)
  | some a =>
    if name = "execute_command" then
      .ok (.executeCommand (a.get "command"))
    else if name = "file_operations" then
      .ok (.fileOperations (a.get "operation") (a.get "path") (a.get "content"))
    else if name = "git_operations" then
      .ok (.gitOperations (a.get "action") (a.get "repo") (a.get "message"))
    else if name = "dependency_manager" then
      .ok (.dependencyManager (a.get "action") (a.get "package"))
    else if name = "code_analysis" then
      .ok (.codeAnalysis (a.get "tool") (a.get "file"))
    else if name = "ai_code_assistant" then
      .ok (.aiCodeAssistant (a.get "task") (a.get "code") (a.get "prompt"))
    else if name = "environment_manager" then
      .ok (.environmentManager (a.get "action") (a.get "key") (a.get "value"))
    else if name = "database_tools" then
      .ok (.databaseTools (a.get "query") (a.get "database"))
    else
      .error (jsError ("Unknown tool: " ++ name) stk)

/-- The complete `CallToolRequestSchema` handler: the try block routes and
invokes the selected tool handler `H` (which may itself fail with a thrown
error), and the catch block turns any thrown error — the dispatcher's own or
the handler's — into a `catchResponse`.  The second component is the trace of
tool-handler invocations performed during the call. -/
def handleCallTool (H : ToolCall → Except ErrObj ToolResponse) (stk name : String)
    (args : Option Bag) : ToolResponse × List ToolCall :=
  match callToolSwitch stk name args with
  | .ok call =>
    match H call with
    | .ok r => (r, [call])
    | .error e => (catchResponse e, [call])
  | .error e => (catchResponse e, [])

/-- A prompt-handler invocation: which imported prompt function the switch of
the `GetPromptRequestSchema` handler calls, with exactly the argument values
it extracts from the optional arguments object via `args?.k`. -/
inductive PromptCall where
  | codeReview (code : Option JValue)
  | debugAssistant (error code : Option JValue)
  | deploymentGuide (environment : Option JValue)
  deriving DecidableEq, Repr

/-- The prompt names the `GetPromptRequestSchema` switch recognises. -/
def promptNames : List String :=
  ["code_review", "debug_assistant", "deployment_guide"]

/-- JavaScript optional chaining `args?.k`: `undefined` when `args` itself is
`undefined`, otherwise property access on the object. -/
def optGet (args : Option Bag) (k : String) : Option JValue :=
  args.bind (fun a => a.get k)

/-- The switch of the `GetPromptRequestSchema` handler.  There is no
try/catch around it: the default case's `` new Error(`Unknown prompt: ${name}`) ``
propagates to the transport.  `stk` is that error's runtime stack string. -/
def getPromptSwitch (stk name : String) (args : Option Bag) : Except ErrObj PromptCall :=
  if name = "code_review" then
    .ok (.codeReview (optGet args "code"))
  else if name = "debug_assistant" then
    .ok (.debugAssistant (optGet args "error") (optGet args "code"))
  else if name = "deployment_guide" then
    .ok (.deploymentGuide (optGet args "environment"))
  else
    .error (jsError ("Unknown prompt: " ++ name) stk)

/-- The complete `GetPromptRequestSchema` handler: route, then invoke the
selected prompt handler `H`; any error — the unknown-prompt error or one
thrown by `H` — is not caught and propagates.  The second component is the
trace of prompt-handler invocations. -/
def handleGetPrompt {π : Type} (H : PromptCall → Except ErrObj π) (stk name : String)
    (args : Option Bag) : Except ErrObj π × List PromptCall :=
  match getPromptSwitch stk name args with
  | .ok call => (H call, [call])
  | .error e => (.error e, [])

/-- A resource-handler invocation: which imported resource function the
if/else chain of the `ReadResourceRequestSchema` handler calls.  Only
`getProjectFiles` receives an argument (the path extracted from the URI);
the other three are called with no arguments. -/
inductive ResourceCall where
  | projectFiles (path : String)
  | gitStatus
  | config
  | logs
  deriving DecidableEq, Repr

/-- JavaScript `s.startsWith(pat)`: is `pat` a prefix of `s`. -/
def jsStartsWith (s pat : String) : Bool :=
  pat.data.isPrefixOf s.data

/-- Split a character list around the first occurrence of `pat`: the part
before the match and the part after it, or `none` when `pat` does not occur. -/
def splitFirstOcc (pat : List Char) : List Char → Option (List Char × List Char)
  | [] => if pat.isPrefixOf ([] : List Char) then some ([], []) else none
  | c :: rest =>
    if pat.isPrefixOf (c :: rest) then some ([], (c :: rest).drop pat.length)
    else (splitFirstOcc pat rest).map (fun p => (c :: p.1, p.2))

/-- JavaScript `s.replace(pat, repl)` with a string pattern: replaces only
the first occurrence of `pat`, and returns `s` unchanged when `pat` does not
occur. -/
def jsReplaceFirst (s pat repl : String) : String :=
  match splitFirstOcc pat.data s.data with
  | some p => ⟨p.1 ++ repl.data ++ p.2⟩
  | none => s

/-- The body of the `ReadResourceRequestSchema` handler: an if/else chain on
the request URI.  The `project://files/` prefix test comes first and routes
to `getProjectFiles(uri.replace("project://files/", ""))`; then three exact
matches route to the no-argument handlers; otherwise
`` new Error(`Unknown resource: ${uri}`) `` is thrown (uncaught).  `stk` is
that error's runtime stack string. -/
def readResourceChain (stk uri : String) : Except ErrObj ResourceCall :=
  if jsStartsWith uri "project://files/" then
    .ok (.projectFiles (jsReplaceFirst uri "project://files/" ""))
  else if uri = "project://git/status" then
    .ok .gitStatus
  else if uri = "project://config" then
    .ok .config
  else if uri = "project://logs" then
    .ok .logs
  else
    .error (jsError ("Unknown resource: " ++ uri) stk)

/-- The complete `ReadResourceRequestSchema` handler: route, then invoke the
selected resource handler `H`; there is no catch, so the unknown-resource
error and any handler error propagate.  The second component is the trace of
resource-handler invocations. -/
def handleReadResource {ρ : Type} (H : ResourceCall → Except ErrObj ρ) (stk uri : String) :
    Except ErrObj ρ × List ResourceCall :=
  match readResourceChain stk uri with
  | .ok call => (H call, [call])
  | .error e => (.error e, [])

/-- The three operation categories the server serves, one per request schema
registered on the `Server` object. -/
inductive Category where
  | tool
  | resource
  | prompt
  deriving DecidableEq, Repr

/-- A handler invocation in any category. -/
inductive Invocation where
  | toolI (c : ToolCall)
  | resourceI (c : ResourceCall)
  | promptI (c : PromptCall)
  deriving DecidableEq, Repr

/-- The category a given invocation belongs to. -/
def Invocation.category : Invocation → Category
  | .toolI _ => Category.tool
  | .resourceI _ => Category.resource
  | .promptI _ => Category.prompt

/-- The server's routing as a single function over categories: the MCP
`Server` object routes a tool-call request to the `CallToolRequestSchema`
handler's switch, a resource read to the `ReadResourceRequestSchema` chain,
and a prompt fetch to the `GetPromptRequestSchema` switch.  Resource reads
carry their name in the URI and ignore the parameter bag. -/
def dispatchRoute (stk : String) : Category → String → Option Bag → Except ErrObj Invocation
  | Category.tool, name, args => (callToolSwitch stk name args).map Invocation.toolI
  | Category.resource, uri, _ => (readResourceChain stk uri).map Invocation.resourceI
  | Category.prompt, name, args => (getPromptSwitch stk name args).map Invocation.promptI

/-- Render a handler outcome the way the `CallToolRequestSchema` handler
does: a successful response is returned as-is, a thrown error becomes the
catch block's response. -/
def renderOutcome (o : Except ErrObj ToolResponse) : ToolResponse :=
  match o with
  | .ok r => r
  | .error e => catchResponse e

/-- Run a sequence of tool-call requests through the `CallToolRequestSchema`
handler, with a stateful tool handler `H` (state type `σ` models whatever
the handlers' own shared environment is — files, processes; the dispatcher
itself holds no state).  Returns the responses, the trace of tool-handler
invocations, and the final handler state. -/
def runToolRequests {σ : Type} (H : σ → ToolCall → Except ErrObj ToolResponse × σ)
    (stk : String) : σ → List (String × Option Bag) → List ToolResponse × List ToolCall × σ
  | s, [] => ([], [], s)
  | s, (name, args) :: rest =>
    match callToolSwitch stk name args with
    | .ok call =>
      let out := H s call
      let res := runToolRequests H stk out.2 rest
      (renderOutcome out.1 :: res.1, call :: res.2.1, res.2.2)
    | .error e =>
      let res := runToolRequests H stk s rest
      (catchResponse e :: res.1, res.2.1, res.2.2)

/-- The outcomes of invoking the stateful handler `H` freshly `n` times on
the same invocation, threading the handler's state: what a caller observes
when no result is ever cached. -/
def handlerRuns {σ : Type} (H : σ → ToolCall → Except ErrObj ToolResponse × σ)
    (call : ToolCall) : σ → Nat → List (Except ErrObj ToolResponse)
  | _, 0 => []
  | s, n + 1 =>
    let out := H s call
    out.1 :: handlerRuns H call out.2 n

/-- Modelled from the spec: the repository's example server hardcodes its
handler tables as switch statements and ships no `register` operation, so
the registration table of spec §4.1 — `register(category, name, handler)`
failing with `DuplicateRegistration` on an already-registered pair, and
`dispatch` looking the pair up — is modelled from the spec's words.  A
table is a list of (category, name, handler) entries. -/
structure RegTable (α : Type) where
  entries : List (Category × String × α)
  deriving DecidableEq

/-- The handler registered under (category, name), if any. -/
def RegTable.lookup {α : Type} (t : RegTable α) (c : Category) (n : String) : Option α :=
  (t.entries.find? (fun e => e.1 == c && e.2.1 == n)).map (fun e => e.2.2)

/-- Registration-time failure, per spec §7. -/
inductive RegError where
  | duplicateRegistration (c : Category) (n : String)
  deriving DecidableEq, Repr

/-- Dispatch-time failure, per spec §7. -/
inductive DispatchError where
  | unknownOperation (c : Category) (n : String)
  deriving DecidableEq, Repr

/-- Modelled from the spec: `register(category, name, handler)` associates a
handler with a name within a category and fails with `DuplicateRegistration`
if the name is already registered in that category. -/
def RegTable.register {α : Type} (t : RegTable α) (c : Category) (n : String) (h : α) :
    Except RegError (RegTable α) :=
  match t.lookup c n with
  | some _ => .error (RegError.duplicateRegistration c n)
  | none => .ok ⟨t.entries ++ [(c, n, h)]⟩

/-- Modelled from the spec: the lookup step of `dispatch(category, name,
params)` — the registered handler when found, `UnknownOperation` otherwise. -/
def RegTable.dispatchOp {α : Type} (t : RegTable α) (c : Category) (n : String) :
    Except DispatchError α :=
  match t.lookup c n with
  | some h => .ok h
  | none => .error (DispatchError.unknownOperation c n)

/-! ## Helper lemmas -/

theorem data_append (a b : String) : (a ++ b).data = a.data ++ b.data := by
  cases a
  cases b
  rfl

theorem infix_of_parts {s t : String} (pre post : List Char)
    (h : t.data = pre ++ s.data ++ post) : s.data <:+: t.data :=
  ⟨pre, post, h.symm⟩

theorem find?_append_none {α : Type} (p : α → Bool) (l l' : List α)
    (h : l.find? p = none) : (l ++ l').find? p = l'.find? p := by
  induction l with
  | nil => rfl
  | cons a as ih =>
    rw [List.find?_cons] at h
    rcases hp : p a with hf | ht
    · rw [List.cons_append, List.find?_cons, hp]
      exact ih (by rwa [hp] at h)
    · rw [hp] at h
      exact absurd h (by simp)

theorem callToolSwitch_unknown (stk name : String) (bag : Bag)
    (h : name ∉ registeredToolNames) :
    callToolSwitch stk name (some bag) = .error (jsError ("Unknown tool: " ++ name) stk) := by
  simp only [registeredToolNames, List.mem_cons, List.not_mem_nil, or_false, not_or] at h
  obtain ⟨h1, h2, h3, h4, h5, h6, h7, h8⟩ := h
  simp [callToolSwitch, h1, h2, h3, h4, h5, h6, h7, h8]

theorem callToolSwitch_registered (stk name : String) (bag : Bag)
    (h : name ∈ registeredToolNames) :
    ∃ call : ToolCall, callToolSwitch stk name (some bag) = .ok call ∧ call.toolName = name := by
  simp only [registeredToolNames, List.mem_cons, List.not_mem_nil, or_false] at h
  rcases h with h | h | h | h | h | h | h | h <;> subst h
  · exact ⟨ToolCall.executeCommand (bag.get "command"), by simp [callToolSwitch], rfl⟩
  · exact ⟨ToolCall.fileOperations (bag.get "operation") (bag.get "path") (bag.get "content"),
      by simp [callToolSwitch], rfl⟩
  · exact ⟨ToolCall.gitOperations (bag.get "action") (bag.get "repo") (bag.get "message"),
      by simp [callToolSwitch], rfl⟩
  · exact ⟨ToolCall.dependencyManager (bag.get "action") (bag.get "package"),
      by simp [callToolSwitch], rfl⟩
  · exact ⟨ToolCall.codeAnalysis (bag.get "tool") (bag.get "file"),
      by simp [callToolSwitch], rfl⟩
  · exact ⟨ToolCall.aiCodeAssistant (bag.get "task") (bag.get "code") (bag.get "prompt"),
      by simp [callToolSwitch], rfl⟩
  · exact ⟨ToolCall.environmentManager (bag.get "action") (bag.get "key") (bag.get "value"),
      by simp [callToolSwitch], rfl⟩
  · exact ⟨ToolCall.databaseTools (bag.get "query") (bag.get "database"),
      by simp [callToolSwitch], rfl⟩

theorem getPromptSwitch_unknown (stk name : String) (args : Option Bag)
    (h : name ∉ promptNames) :
    getPromptSwitch stk name args = .error (jsError ("Unknown prompt: " ++ name) stk) := by
  simp only [promptNames, List.mem_cons, List.not_mem_nil, or_false, not_or] at h
  obtain ⟨h1, h2, h3⟩ := h
  simp [getPromptSwitch, h1, h2, h3]

theorem readResourceChain_unknown (stk uri : String)
    (h1 : jsStartsWith uri "project://files/" = false)
    (h2 : uri ≠ "project://git/status") (h3 : uri ≠ "project://config")
    (h4 : uri ≠ "project://logs") :
    readResourceChain stk uri = .error (jsError ("Unknown resource: " ++ uri) stk) := by
  simp [readResourceChain, h1, h2, h3, h4]

theorem handleCallTool_route_ok (H : ToolCall → Except ErrObj ToolResponse)
    (stk name : String) (args : Option Bag) (call : ToolCall)
    (h : callToolSwitch stk name args = .ok call) :
    handleCallTool H stk name args = (renderOutcome (H call), [call]) := by
  rw [handleCallTool, h]
  cases hc : H call <;> simp [renderOutcome, hc]

theorem handleCallTool_route_error (H : ToolCall → Except ErrObj ToolResponse)
    (stk name : String) (args : Option Bag) (e : ErrObj)
    (h : callToolSwitch stk name args = .error e) :
    handleCallTool H stk name args = (catchResponse e, []) := by
  rw [handleCallTool, h]

/-! ## Claim theorems -/

/-- **C1** (counterexample): the parameter bag is not passed verbatim to the
selected handler.  Two distinct bags — one carries an extra key `"extra"` —
produce the identical handler invocation for the registered tool
`execute_command`, because the switch extracts only `args.command` and drops
every other key; had the bag been passed verbatim, the two invocations would
differ. -/
theorem params_not_passed_verbatim :
    ([("command", JValue.vStr "ls"), ("extra", JValue.vStr "x")] : Bag) ≠
      ([("command", JValue.vStr "ls")] : Bag) ∧
    callToolSwitch "st" "execute_command"
        (some [("command", JValue.vStr "ls"), ("extra", JValue.vStr "x")]) =
      callToolSwitch "st" "execute_command" (some [("command", JValue.vStr "ls")]) := by
  constructor
  · decide
  · rfl

/-- **C1** (amended): for every registered tool name and every parameter
bag, dispatch invokes exactly the handler registered under that name,
exactly once, and returns exactly that handler's outcome; the handler does
not receive the bag verbatim but the values extracted from it at the keys
the switch names for that handler, so the invocation is determined by those
keys alone. -/
theorem dispatch_invokes_registered_handler_once
    (H : ToolCall → Except ErrObj ToolResponse) (stk name : String) (bag : Bag)
    (hreg : name ∈ registeredToolNames) :
    ∃ call : ToolCall,
      callToolSwitch stk name (some bag) = Except.ok call ∧
      call.toolName = name ∧
      (handleCallTool H stk name (some bag)).2 = [call] ∧
      (handleCallTool H stk name (some bag)).1 = renderOutcome (H call) ∧
      ∀ bag' : Bag, (∀ k ∈ toolArgKeys name, bag'.get k = bag.get k) →
        callToolSwitch stk name (some bag') = Except.ok call := by
  simp only [registeredToolNames, List.mem_cons, List.not_mem_nil, or_false] at hreg
  rcases hreg with h | h | h | h | h | h | h | h <;> subst h
  · have hroute : callToolSwitch stk "execute_command" (some bag) =
        Except.ok (ToolCall.executeCommand (bag.get "command")) := by
      simp [callToolSwitch]
    refine ⟨_, hroute, rfl, ?_, ?_, ?_⟩
    · rw [handleCallTool_route_ok H stk "execute_command" (some bag) _ hroute]
    · rw [handleCallTool_route_ok H stk "execute_command" (some bag) _ hroute]
    · intro bag' hk
      have k1 := hk "command" (by simp [toolArgKeys])
      simp [callToolSwitch, k1]
  · have hroute : callToolSwitch stk "file_operations" (some bag) =
        Except.ok (ToolCall.fileOperations (bag.get "operation") (bag.get "path")
          (bag.get "content")) := by
      simp [callToolSwitch]
    refine ⟨_, hroute, rfl, ?_, ?_, ?_⟩
    · rw [handleCallTool_route_ok H stk "file_operations" (some bag) _ hroute]
    · rw [handleCallTool_route_ok H stk "file_operations" (some bag) _ hroute]
    · intro bag' hk
      have k1 := hk "operation" (by simp [toolArgKeys])
      have k2 := hk "path" (by simp [toolArgKeys])
      have k3 := hk "content" (by simp [toolArgKeys])
      simp [callToolSwitch, k1, k2, k3]
  · have hroute : callToolSwitch stk "git_operations" (some bag) =
        Except.ok (ToolCall.gitOperations (bag.get "action") (bag.get "repo")
          (bag.get "message")) := by
      simp [callToolSwitch]
    refine ⟨_, hroute, rfl, ?_, ?_, ?_⟩
    · rw [handleCallTool_route_ok H stk "git_operations" (some bag) _ hroute]
    · rw [handleCallTool_route_ok H stk "git_operations" (some bag) _ hroute]
    · intro bag' hk
      have k1 := hk "action" (by simp [toolArgKeys])
      have k2 := hk "repo" (by simp [toolArgKeys])
      have k3 := hk "message" (by simp [toolArgKeys])
      simp [callToolSwitch, k1, k2, k3]
  · have hroute : callToolSwitch stk "dependency_manager" (some bag) =
        Except.ok (ToolCall.dependencyManager (bag.get "action") (bag.get "package")) := by
      simp [callToolSwitch]
    refine ⟨_, hroute, rfl, ?_, ?_, ?_⟩
    · rw [handleCallTool_route_ok H stk "dependency_manager" (some bag) _ hroute]
    · rw [handleCallTool_route_ok H stk "dependency_manager" (some bag) _ hroute]
    · intro bag' hk
      have k1 := hk "action" (by simp [toolArgKeys])
      have k2 := hk "package" (by simp [toolArgKeys])
      simp [callToolSwitch, k1, k2]
  · have hroute : callToolSwitch stk "code_analysis" (some bag) =
        Except.ok (ToolCall.codeAnalysis (bag.get "tool") (bag.get "file")) := by
      simp [callToolSwitch]
    refine ⟨_, hroute, rfl, ?_, ?_, ?_⟩
    · rw [handleCallTool_route_ok H stk "code_analysis" (some bag) _ hroute]
    · rw [handleCallTool_route_ok H stk "code_analysis" (some bag) _ hroute]
    · intro bag' hk
      have k1 := hk "tool" (by simp [toolArgKeys])
      have k2 := hk "file" (by simp [toolArgKeys])
      simp [callToolSwitch, k1, k2]
  · have hroute : callToolSwitch stk "ai_code_assistant" (some bag) =
        Except.ok (ToolCall.aiCodeAssistant (bag.get "task") (bag.get "code")
          (bag.get "prompt")) := by
      simp [callToolSwitch]
    refine ⟨_, hroute, rfl, ?_, ?_, ?_⟩
    · rw [handleCallTool_route_ok H stk "ai_code_assistant" (some bag) _ hroute]
    · rw [handleCallTool_route_ok H stk "ai_code_assistant" (some bag) _ hroute]
    · intro bag' hk
      have k1 := hk "task" (by simp [toolArgKeys])
      have k2 := hk "code" (by simp [toolArgKeys])
      have k3 := hk "prompt" (by simp [toolArgKeys])
      simp [callToolSwitch, k1, k2, k3]
  · have hroute : callToolSwitch stk "environment_manager" (some bag) =
        Except.ok (ToolCall.environmentManager (bag.get "action") (bag.get "key")
          (bag.get "value")) := by
      simp [callToolSwitch]
    refine ⟨_, hroute, rfl, ?_, ?_, ?_⟩
    · rw [handleCallTool_route_ok H stk "environment_manager" (some bag) _ hroute]
    · rw [handleCallTool_route_ok H stk "environment_manager" (some bag) _ hroute]
    · intro bag' hk
      have k1 := hk "action" (by simp [toolArgKeys])
      have k2 := hk "key" (by simp [toolArgKeys])
      have k3 := hk "value" (by simp [toolArgKeys])
      simp [callToolSwitch, k1, k2, k3]
  · have hroute : callToolSwitch stk "database_tools" (some bag) =
        Except.ok (ToolCall.databaseTools (bag.get "query") (bag.get "database")) := by
      simp [callToolSwitch]
    refine ⟨_, hroute, rfl, ?_, ?_, ?_⟩
    · rw [handleCallTool_route_ok H stk "database_tools" (some bag) _ hroute]
    · rw [handleCallTool_route_ok H stk "database_tools" (some bag) _ hroute]
    · intro bag' hk
      have k1 := hk "query" (by simp [toolArgKeys])
      have k2 := hk "database" (by simp [toolArgKeys])
      simp [callToolSwitch, k1, k2]

/-- Witness for the amended C1 theorem at the registered tool
`execute_command` with bag `{command: "ls"}` and a handler that succeeds. -/
theorem dispatch_invokes_registered_handler_once_witness :
    ∃ call : ToolCall,
      callToolSwitch "st" "execute_command" (some [("command", JValue.vStr "ls")]) =
        Except.ok call ∧
      call.toolName = "execute_command" ∧
      (handleCallTool (fun c => Except.ok ⟨[⟨"text", c.toolName⟩], none⟩) "st"
        "execute_command" (some [("command", JValue.vStr "ls")])).2 = [call] ∧
      (handleCallTool (fun c => Except.ok ⟨[⟨"text", c.toolName⟩], none⟩) "st"
        "execute_command" (some [("command", JValue.vStr "ls")])).1 =
        renderOutcome ((fun c => Except.ok ⟨[⟨"text", c.toolName⟩], none⟩) call) ∧
      ∀ bag' : Bag, (∀ k ∈ toolArgKeys "execute_command",
          bag'.get k = Bag.get [("command", JValue.vStr "ls")] k) →
        callToolSwitch "st" "execute_command" (some bag') = Except.ok call :=
  dispatch_invokes_registered_handler_once
    (fun c => Except.ok ⟨[⟨"text", c.toolName⟩], none⟩) "st" "execute_command"
    [("command", JValue.vStr "ls")] (by decide)

/-- **C9**: a tool-call request whose `arguments` is `undefined` is rejected
with the `Missing arguments` error before the switch selects or invokes any
handler: the result is the catch block's response for that error, for every
tool name (registered or not) and independently of the handler functions,
with an empty invocation trace. -/
theorem missing_arguments_rejected_first
    (H : ToolCall → Except ErrObj ToolResponse) (stk name : String) :
    handleCallTool H stk name none =
      (catchResponse (jsError "Missing arguments" stk), []) := rfl

/-- **C5**: dispatch never crosses categories: whenever the server's routing
for a category yields a handler invocation, that invocation belongs to the
same category — a tool-call request can only ever reach tool handlers, a
resource read only resource handlers, a prompt fetch only prompt handlers. -/
theorem dispatch_stays_in_category (stk : String) (cat : Category) (name : String)
    (args : Option Bag) (inv : Invocation)
    (h : dispatchRoute stk cat name args = Except.ok inv) :
    inv.category = cat := by
  cases cat
  case tool =>
    simp only [dispatchRoute] at h
    cases hx : callToolSwitch stk name args with
    | ok c =>
      rw [hx] at h
      simp only [Except.map, Except.ok.injEq] at h
      subst h
      rfl
    | error e =>
      rw [hx] at h
      simp [Except.map] at h
  case resource =>
    simp only [dispatchRoute] at h
    cases hx : readResourceChain stk name with
    | ok c =>
      rw [hx] at h
      simp only [Except.map, Except.ok.injEq] at h
      subst h
      rfl
    | error e =>
      rw [hx] at h
      simp [Except.map] at h
  case prompt =>
    simp only [dispatchRoute] at h
    cases hx : getPromptSwitch stk name args with
    | ok c =>
      rw [hx] at h
      simp only [Except.map, Except.ok.injEq] at h
      subst h
      rfl
    | error e =>
      rw [hx] at h
      simp [Except.map] at h

/-- Witness for C5: routing a tool-call request for `execute_command` with
an empty bag yields a tool-category invocation. -/
theorem dispatch_stays_in_category_witness :
    (Invocation.toolI (ToolCall.executeCommand none)).category = Category.tool :=
  dispatch_stays_in_category "st" Category.tool "execute_command" (some [])
    (Invocation.toolI (ToolCall.executeCommand none)) rfl

/-- **C2**: for a (category, name) pair that is not registered, dispatch
fails with the unknown-operation error whose message names the category
(`tool` / `prompt` / `resource`) and the requested name, and no handler is
invoked: the tool trace is empty and the result does not depend on the
handler functions (the equations' right-hand sides do not mention them). -/
theorem unknown_operation_never_invokes_handler
    (Ht : ToolCall → Except ErrObj ToolResponse)
    (Hp : PromptCall → Except ErrObj Unit)
    (Hr : ResourceCall → Except ErrObj Unit)
    (stk tname pname uri : String) (bag : Bag) (pargs : Option Bag)
    (hT : tname ∉ registeredToolNames)
    (hP : pname ∉ promptNames)
    (hU1 : jsStartsWith uri "project://files/" = false)
    (hU2 : uri ≠ "project://git/status") (hU3 : uri ≠ "project://config")
    (hU4 : uri ≠ "project://logs") :
    callToolSwitch stk tname (some bag) =
      Except.error (jsError ("Unknown tool: " ++ tname) stk) ∧
    handleCallTool Ht stk tname (some bag) =
      (catchResponse (jsError ("Unknown tool: " ++ tname) stk), []) ∧
    getPromptSwitch stk pname pargs =
      Except.error (jsError ("Unknown prompt: " ++ pname) stk) ∧
    handleGetPrompt Hp stk pname pargs =
      (Except.error (jsError ("Unknown prompt: " ++ pname) stk), []) ∧
    readResourceChain stk uri =
      Except.error (jsError ("Unknown resource: " ++ uri) stk) ∧
    handleReadResource Hr stk uri =
      (Except.error (jsError ("Unknown resource: " ++ uri) stk), []) := by
  have h1 := callToolSwitch_unknown stk tname bag hT
  have h2 := getPromptSwitch_unknown stk pname pargs hP
  have h3 := readResourceChain_unknown stk uri hU1 hU2 hU3 hU4
  refine ⟨h1, handleCallTool_route_error Ht stk tname (some bag) _ h1, h2, ?_, h3, ?_⟩
  · rw [handleGetPrompt, h2]
  · rw [handleReadResource, h3]

/-- Witness for C2 at the never-registered tool name `delete_all`, prompt
name `nope` and resource URI `project://secrets`. -/
theorem unknown_operation_never_invokes_handler_witness :
    callToolSwitch "st" "delete_all" (some []) =
      Except.error (jsError ("Unknown tool: " ++ "delete_all") "st") ∧
    handleCallTool (fun _ => Except.ok ⟨[], none⟩) "st" "delete_all" (some []) =
      (catchResponse (jsError ("Unknown tool: " ++ "delete_all") "st"), []) ∧
    getPromptSwitch "st" "nope" none =
      Except.error (jsError ("Unknown prompt: " ++ "nope") "st") ∧
    handleGetPrompt (fun _ => Except.ok ()) "st" "nope" none =
      (Except.error (jsError ("Unknown prompt: " ++ "nope") "st"), []) ∧
    readResourceChain "st" "project://secrets" =
      Except.error (jsError ("Unknown resource: " ++ "project://secrets") "st") ∧
    handleReadResource (fun _ => Except.ok ()) "st" "project://secrets" =
      (Except.error (jsError ("Unknown resource: " ++ "project://secrets") "st"), []) :=
  unknown_operation_never_invokes_handler (fun _ => Except.ok ⟨[], none⟩)
    (fun _ => Except.ok ()) (fun _ => Except.ok ()) "st" "delete_all" "nope"
    "project://secrets" [] none (by decide) (by decide) (by decide) (by decide)
    (by decide) (by decide)

/-- **C3**: handler outcomes pass through unmodified.  A successful handler
response (even one the handler marked as its own error report) is returned
exactly; a handler that fails by throwing error payload `E` is surfaced
through the catch block's response, whose text embeds `E`'s message, stack
and name verbatim as substrings — nothing is dropped or redacted. -/
theorem handler_failure_passes_through
    (Hok Herr : ToolCall → Except ErrObj ToolResponse)
    (stk name : String) (args : Option Bag) (call : ToolCall)
    (r : ToolResponse) (e : ErrObj)
    (hroute : callToolSwitch stk name args = Except.ok call)
    (hok : Hok call = Except.ok r) (herr : Herr call = Except.error e) :
    (handleCallTool Hok stk name args).1 = r ∧
    handleCallTool Herr stk name args = (catchResponse e, [call]) ∧
    e.message.data <:+: (catchText e).data ∧
    e.stack.data <:+: (catchText e).data ∧
    e.name.data <:+: (catchText e).data := by
  refine ⟨?_, ?_, ?_, ?_, ?_⟩
  · rw [handleCallTool_route_ok Hok stk name args call hroute]
    simp [renderOutcome, hok]
  · rw [handleCallTool_route_ok Herr stk name args call hroute]
    simp [renderOutcome, herr]
  · by_cases hn : e.name = ""
    · exact infix_of_parts ("Error: ".data) ("\n\nStack trace:\n" ++ e.stack).data
        (by simp [catchText, jsErrorToString, hn, data_append, List.append_assoc])
    · by_cases hm : e.message = ""
      · exact ⟨[], (catchText e).data, by simp [hm]⟩
      · exact infix_of_parts ("Error: " ++ e.name ++ ": ").data
          ("\n\nStack trace:\n" ++ e.stack).data
          (by simp [catchText, jsErrorToString, hn, hm, data_append, List.append_assoc])
  · exact infix_of_parts ("Error: " ++ jsErrorToString e ++ "\n\nStack trace:\n").data []
      (by simp [catchText, data_append, List.append_assoc])
  · by_cases hn : e.name = ""
    · exact ⟨[], (catchText e).data, by simp [hn]⟩
    · by_cases hm : e.message = ""
      · exact infix_of_parts ("Error: ".data) ("\n\nStack trace:\n" ++ e.stack).data
          (by simp [catchText, jsErrorToString, hn, hm, data_append, List.append_assoc])
      · exact infix_of_parts ("Error: ".data)
          ((": " ++ e.message ++ "\n\nStack trace:\n" ++ e.stack).data)
          (by simp [catchText, jsErrorToString, hn, hm, data_append, List.append_assoc])

/-- Witness for C3 at `execute_command` with a succeeding handler and a
handler that throws `Error("boom")` with stack `"TRACE"`. -/
theorem handler_failure_passes_through_witness :
    (handleCallTool (fun _ => Except.ok ⟨[⟨"text", "done"⟩], none⟩) "st"
      "execute_command" (some [("command", JValue.vStr "ls")])).1 =
      (⟨[⟨"text", "done"⟩], none⟩ : ToolResponse) ∧
    handleCallTool (fun _ => Except.error ⟨"Error", "boom", "TRACE"⟩) "st"
      "execute_command" (some [("command", JValue.vStr "ls")]) =
      (catchResponse ⟨"Error", "boom", "TRACE"⟩,
        [ToolCall.executeCommand (some (JValue.vStr "ls"))]) ∧
    "boom".data <:+: (catchText ⟨"Error", "boom", "TRACE"⟩).data ∧
    "TRACE".data <:+: (catchText ⟨"Error", "boom", "TRACE"⟩).data ∧
    "Error".data <:+: (catchText ⟨"Error", "boom", "TRACE"⟩).data :=
  handler_failure_passes_through
    (fun _ => Except.ok ⟨[⟨"text", "done"⟩], none⟩)
    (fun _ => Except.error ⟨"Error", "boom", "TRACE"⟩)
    "st" "execute_command" (some [("command", JValue.vStr "ls")])
    (ToolCall.executeCommand (some (JValue.vStr "ls")))
    ⟨[⟨"text", "done"⟩], none⟩ ⟨"Error", "boom", "TRACE"⟩ rfl rfl rfl

/-- **C6**: repeated dispatch of the identical (registered name, bag)
request re-invokes the handler every single time — the trace of `n`
identical requests has exactly `n` invocations of the selected handler —
and the `n` responses are exactly the rendered outcomes of `n` fresh,
state-threaded handler invocations: no result is cached, each call's outcome
is whatever the handler returns for that invocation. -/
theorem repeated_dispatch_reinvokes_handler {σ : Type}
    (H : σ → ToolCall → Except ErrObj ToolResponse × σ) (stk name : String)
    (bag : Bag) (s : σ) (n : Nat)
    (hreg : name ∈ registeredToolNames) :
    ∃ call : ToolCall,
      callToolSwitch stk name (some bag) = Except.ok call ∧
      (runToolRequests H stk s (List.replicate n (name, some bag))).2.1 =
        List.replicate n call ∧
      (runToolRequests H stk s (List.replicate n (name, some bag))).1 =
        (handlerRuns H call s n).map renderOutcome := by
  obtain ⟨call, hroute, -⟩ := callToolSwitch_registered stk name bag hreg
  have key : ∀ (m : Nat) (st : σ),
      (runToolRequests H stk st (List.replicate m (name, some bag))).2.1 =
        List.replicate m call ∧
      (runToolRequests H stk st (List.replicate m (name, some bag))).1 =
        (handlerRuns H call st m).map renderOutcome := by
    intro m
    induction m with
    | zero => intro st; simp [runToolRequests, handlerRuns]
    | succ k ih =>
      intro st
      rw [List.replicate_succ]
      obtain ⟨ih1, ih2⟩ := ih (H st call).2
      simp [runToolRequests, hroute, handlerRuns, ih1, ih2, List.replicate_succ]
  exact ⟨call, hroute, (key n s).1, (key n s).2⟩

/-- Witness for C6: three identical `execute_command` requests against a
counting handler are each routed to a fresh handler invocation. -/
theorem repeated_dispatch_reinvokes_handler_witness :
    ∃ call : ToolCall,
      callToolSwitch "st" "execute_command" (some [("command", JValue.vStr "ls")]) =
        Except.ok call ∧
      (runToolRequests
        (fun (s : Nat) _ => (Except.ok (⟨[⟨"text", toString s⟩], none⟩ : ToolResponse), s + 1))
        "st" 0 (List.replicate 3 ("execute_command",
          some [("command", JValue.vStr "ls")]))).2.1 = List.replicate 3 call ∧
      (runToolRequests
        (fun (s : Nat) _ => (Except.ok (⟨[⟨"text", toString s⟩], none⟩ : ToolResponse), s + 1))
        "st" 0 (List.replicate 3 ("execute_command",
          some [("command", JValue.vStr "ls")]))).1 =
        (handlerRuns
          (fun (s : Nat) _ => (Except.ok (⟨[⟨"text", toString s⟩], none⟩ : ToolResponse), s + 1))
          call 0 3).map renderOutcome :=
  repeated_dispatch_reinvokes_handler
    (fun (s : Nat) _ => (Except.ok (⟨[⟨"text", toString s⟩], none⟩ : ToolResponse), s + 1))
    "st" "execute_command" [("command", JValue.vStr "ls")] 0 3 (by decide)

/-- **C7**: the routing table is static.  Over any sequence of tool-call
requests, the handler invocation selected for each request is exactly what
the one-shot switch yields for that request alone — dispatching never
creates, mutates or destroys a routing entry, whatever the handlers do to
their own state — and a name routes to a handler exactly when it is in the
fixed registered-name list built into the switch at startup. -/
theorem routing_table_read_only {σ : Type}
    (H : σ → ToolCall → Except ErrObj ToolResponse × σ) (stk : String) (s : σ)
    (reqs : List (String × Option Bag)) :
    (runToolRequests H stk s reqs).2.1 =
      reqs.filterMap (fun r => (callToolSwitch stk r.1 r.2).toOption) ∧
    ∀ name : String, ∀ bag : Bag,
      (∃ call : ToolCall, callToolSwitch stk name (some bag) = Except.ok call) ↔
        name ∈ registeredToolNames := by
  constructor
  · induction reqs generalizing s with
    | nil => simp [runToolRequests]
    | cons r rest ih =>
      obtain ⟨rn, ra⟩ := r
      cases hx : callToolSwitch stk rn ra with
      | ok c => simp [runToolRequests, hx, Except.toOption, ih]
      | error e => simp [runToolRequests, hx, Except.toOption, ih]
  · intro name bag
    constructor
    · rintro ⟨call, hc⟩
      by_contra hmem
      rw [callToolSwitch_unknown stk name bag hmem] at hc
      exact Except.noConfusion hc
    · intro hmem
      obtain ⟨call, hc, -⟩ := callToolSwitch_registered stk name bag hmem
      exact ⟨call, hc⟩

/-- **C8**: no exception escapes the tool dispatcher — its own thrown errors
(missing arguments, unknown tool) and any handler-thrown error are caught
and returned as an ordinary text response whose `isError` field is absent
and whose text embeds the error's message and stack trace; whereas the
resource and prompt dispatchers propagate their unknown-name errors as
thrown exceptions. -/
theorem tool_errors_caught_others_thrown
    (Ht Ht2 : ToolCall → Except ErrObj ToolResponse)
    (Hp : PromptCall → Except ErrObj Unit) (Hr : ResourceCall → Except ErrObj Unit)
    (stk name name2 pname uri : String) (args args2 pargs : Option Bag)
    (e e2 : ErrObj) (call : ToolCall)
    (h1 : callToolSwitch stk name args = Except.error e)
    (h2 : callToolSwitch stk name2 args2 = Except.ok call)
    (h3 : Ht2 call = Except.error e2)
    (hP : pname ∉ promptNames)
    (hU1 : jsStartsWith uri "project://files/" = false)
    (hU2 : uri ≠ "project://git/status") (hU3 : uri ≠ "project://config")
    (hU4 : uri ≠ "project://logs") :
    handleCallTool Ht stk name args = (catchResponse e, []) ∧
    handleCallTool Ht2 stk name2 args2 = (catchResponse e2, [call]) ∧
    (catchResponse e).isError = none ∧
    (catchResponse e).content =
      [⟨"text", "Error: " ++ jsErrorToString e ++ "\n\nStack trace:\n" ++ e.stack⟩] ∧
    (handleGetPrompt Hp stk pname pargs).1 =
      Except.error (jsError ("Unknown prompt: " ++ pname) stk) ∧
    (handleReadResource Hr stk uri).1 =
      Except.error (jsError ("Unknown resource: " ++ uri) stk) := by
  refine ⟨handleCallTool_route_error Ht stk name args e h1, ?_, rfl, rfl, ?_, ?_⟩
  · rw [handleCallTool_route_ok Ht2 stk name2 args2 call h2]
    simp [renderOutcome, h3]
  · rw [handleGetPrompt, getPromptSwitch_unknown stk pname pargs hP]
  · rw [handleReadResource, readResourceChain_unknown stk uri hU1 hU2 hU3 hU4]

/-- Witness for C8: arguments `undefined` for `execute_command` (dispatcher
throw), a handler throwing `Error("boom")`, the unknown prompt `nope` and
the unknown resource `project://x`. -/
theorem tool_errors_caught_others_thrown_witness :
    handleCallTool (fun _ => Except.ok ⟨[], none⟩) "st" "execute_command" none =
      (catchResponse (jsError "Missing arguments" "st"), []) ∧
    handleCallTool (fun _ => Except.error ⟨"Error", "boom", "TR"⟩) "st"
      "execute_command" (some [("command", JValue.vStr "ls")]) =
      (catchResponse ⟨"Error", "boom", "TR"⟩,
        [ToolCall.executeCommand (some (JValue.vStr "ls"))]) ∧
    (catchResponse (jsError "Missing arguments" "st")).isError = none ∧
    (catchResponse (jsError "Missing arguments" "st")).content =
      [⟨"text", "Error: " ++ jsErrorToString (jsError "Missing arguments" "st") ++
        "\n\nStack trace:\n" ++ (jsError "Missing arguments" "st").stack⟩] ∧
    (handleGetPrompt (fun _ => Except.ok ()) "st" "nope" none).1 =
      Except.error (jsError ("Unknown prompt: " ++ "nope") "st") ∧
    (handleReadResource (fun _ => Except.ok ()) "st" "project://x").1 =
      Except.error (jsError ("Unknown resource: " ++ "project://x") "st") :=
  tool_errors_caught_others_thrown
    (fun _ => Except.ok ⟨[], none⟩) (fun _ => Except.error ⟨"Error", "boom", "TR"⟩)
    (fun _ => Except.ok ()) (fun _ => Except.ok ())
    "st" "execute_command" "execute_command" "nope" "project://x"
    none (some [("command", JValue.vStr "ls")]) none
    (jsError "Missing arguments" "st") ⟨"Error", "boom", "TR"⟩
    (ToolCall.executeCommand (some (JValue.vStr "ls")))
    rfl rfl rfl (by decide) (by decide) (by decide) (by decide) (by decide)

/-- **C4** (spec-modelled): once `register(category, name, handler)` has
succeeded, a second `register` for the same (category, name) pair fails with
`DuplicateRegistration` naming the pair, and the originally registered
handler remains dispatchable unchanged under that pair. -/
theorem register_duplicate_rejected {α : Type} (t t' : RegTable α)
    (c : Category) (n : String) (h h' : α)
    (hreg : t.register c n h = Except.ok t') :
    t'.register c n h' = Except.error (RegError.duplicateRegistration c n) ∧
    t'.lookup c n = some h ∧
    t'.dispatchOp c n = Except.ok h := by
  rw [RegTable.register] at hreg
  cases hl : t.lookup c n with
  | some x =>
    rw [hl] at hreg
    exact Except.noConfusion hreg
  | none =>
    rw [hl] at hreg
    obtain rfl : t' = ⟨t.entries ++ [(c, n, h)]⟩ := by
      injection hreg with hh
      exact hh.symm
    have hfind : t.entries.find? (fun e => e.1 == c && e.2.1 == n) = none := by
      rw [RegTable.lookup] at hl
      cases hf : t.entries.find? (fun e => e.1 == c && e.2.1 == n) with
      | none => rfl
      | some x =>
        rw [hf] at hl
        exact Option.noConfusion hl
    have hlook : RegTable.lookup ⟨t.entries ++ [(c, n, h)]⟩ c n = some h := by
      rw [RegTable.lookup]
      rw [find?_append_none _ _ _ hfind]
      rw [List.find?_cons_of_pos _ (by simp)]
      rfl
    refine ⟨?_, hlook, ?_⟩
    · rw [RegTable.register, hlook]
    · rw [RegTable.dispatchOp, hlook]

/-- Witness for C4: registering `read_file` as a tool twice — the second
call fails and the first handler (numbered 0) stays looked up. -/
theorem register_duplicate_rejected_witness :
    RegTable.register (⟨[(Category.tool, "read_file", 0)]⟩ : RegTable Nat)
        Category.tool "read_file" 1 =
      Except.error (RegError.duplicateRegistration Category.tool "read_file") ∧
    RegTable.lookup (⟨[(Category.tool, "read_file", 0)]⟩ : RegTable Nat)
        Category.tool "read_file" = some 0 ∧
    RegTable.dispatchOp (⟨[(Category.tool, "read_file", 0)]⟩ : RegTable Nat)
        Category.tool "read_file" = Except.ok 0 :=
  register_duplicate_rejected ⟨[]⟩ ⟨[(Category.tool, "read_file", 0)]⟩
    Category.tool "read_file" 0 1 rfl

/-- **C10**: resource-read routing.  A URI starting with `project://files/`
— the prefix test comes first in the chain — is routed to `getProjectFiles`
applied to the URI with the first occurrence of that prefix removed; the
exact URIs `project://git/status`, `project://config` and `project://logs`
are routed to their no-argument handlers; any other URI fails with the
`Unknown resource` error naming the URI. -/
theorem resource_uri_routing (stk uri uri2 : String)
    (hs : jsStartsWith uri "project://files/" = true)
    (hu1 : jsStartsWith uri2 "project://files/" = false)
    (hu2 : uri2 ≠ "project://git/status") (hu3 : uri2 ≠ "project://config")
    (hu4 : uri2 ≠ "project://logs") :
    readResourceChain stk uri =
      Except.ok (ResourceCall.projectFiles (jsReplaceFirst uri "project://files/" "")) ∧
    readResourceChain stk "project://git/status" = Except.ok ResourceCall.gitStatus ∧
    readResourceChain stk "project://config" = Except.ok ResourceCall.config ∧
    readResourceChain stk "project://logs" = Except.ok ResourceCall.logs ∧
    readResourceChain stk uri2 =
      Except.error (jsError ("Unknown resource: " ++ uri2) stk) := by
  refine ⟨by simp [readResourceChain, hs], ?_, ?_, ?_,
    readResourceChain_unknown stk uri2 hu1 hu2 hu3 hu4⟩
  · rfl
  · rfl
  · rfl

/-- Witness for C10 at the traversal-style URI `project://files/../.env` and
the unknown URI `project://secrets/all`. -/
theorem resource_uri_routing_witness :
    readResourceChain "st" "project://files/../.env" =
      Except.ok (ResourceCall.projectFiles
        (jsReplaceFirst "project://files/../.env" "project://files/" "")) ∧
    readResourceChain "st" "project://git/status" = Except.ok ResourceCall.gitStatus ∧
    readResourceChain "st" "project://config" = Except.ok ResourceCall.config ∧
    readResourceChain "st" "project://logs" = Except.ok ResourceCall.logs ∧
    readResourceChain "st" "project://secrets/all" =
      Except.error (jsError ("Unknown resource: " ++ "project://secrets/all") "st") :=
  resource_uri_routing "st" "project://files/../.env" "project://secrets/all"
    (by decide) (by decide) (by decide) (by decide) (by decide)

end McpDispatch

